import Mathlib

/-!
Verification development for the streaming chat frontend
(`frontend/app/api/constants.ts`, containing the merged page component).

The definitions below shallowly embed the state and operations of the
component: the message list, the tool-activity flags, the streaming loop
of `handleSubmit` (lines 293-332), the validation and request-building
phase of `handleSubmit` (lines 229-275), the error and cleanup paths
(lines 333-345), and the PDF registry operations (`handleDeletePDF`,
lines 201-223, and the selection handling).

Strings are modelled as Lean `String`; the JavaScript regular-expression
match `chunk.match(/__TOOL_USAGE__(.+?)__TOOL_USAGE__/)` is embedded as
an executable leftmost-shortest matcher on character lists, including the
JavaScript rule that `.` does not match line terminators.
-/

/-- `role` field of the `Message` interface (constants.ts line 16). -/
inductive Role where
  | user : Role
  | assistant : Role
deriving DecidableEq

/-- The `Message` interface (constants.ts lines 15-19); the `Date`
timestamp is modelled as a natural number supplied by the caller. -/
structure Message where
  role : Role
  content : String
  timestamp : Nat
deriving DecidableEq

/-- The `UploadedPDF` interface (constants.ts lines 21-25). -/
structure UploadedPDF where
  pdf_id : String
  filename : String
  chunks_count : Nat
deriving DecidableEq

/-- The sentinel token `__TOOL_USAGE__` (constants.ts lines 303-304). -/
def sentinel : List Char := "__TOOL_USAGE__".data

/-- `chunk.includes('__TOOL_USAGE__')` (constants.ts line 303):
substring occurrence of the sentinel. -/
def containsSentinel : List Char → Bool
  | [] => sentinel.isPrefixOf []
  | c :: rest => sentinel.isPrefixOf (c :: rest) || containsSentinel rest

/-- JavaScript `.` (no `s` flag) matches every character except the four
line terminators. -/
def isRegexDot (c : Char) : Bool :=
  !(c = '\n' || c = '\r' || c = ' ' || c = ' ')

/-- Lazy capture scan for `(.+?)` followed by the closing sentinel: after
consuming each character (which must be matchable by `.`), first test
whether the rest of the input starts with the closing sentinel, so the
shortest non-empty capture wins. -/
def capScan (acc : List Char) : List Char → Option (List Char)
  | [] => none
  | c :: rest =>
    if isRegexDot c then
      if sentinel.isPrefixOf rest then some (acc ++ [c])
      else capScan (acc ++ [c]) rest
    else none

/-- `chunk.match(/__TOOL_USAGE__(.+?)__TOOL_USAGE__/)` (constants.ts line
304): leftmost match; at each starting position the opening sentinel must
match literally, then the lazy capture and closing sentinel; on failure
the engine retries from the next position. Returns the captured tool
name. -/
def findToolMatch : List Char → Option (List Char)
  | [] => none
  | c :: rest =>
    if sentinel.isPrefixOf (c :: rest) then
      match capScan [] (List.drop sentinel.length (c :: rest)) with
      | some cap => some cap
      | none => findToolMatch rest
    else findToolMatch rest

/-- The JavaScript WhiteSpace and LineTerminator code points removed by
`String.prototype.trim`. -/
def jsWhitespace (c : Char) : Bool :=
  c = ' ' || c = '\t' || c = '\n' || c = '\x0b' || c = '\x0c' || c = '\r' ||
  c = ' ' || c = ' ' || (' ' ≤ c && c ≤ ' ') ||
  c = ' ' || c = ' ' || c = ' ' || c = ' ' ||
  c = '　' || c = '﻿'

/-- `!s.trim()` in JavaScript boolean position: the string trims to the
empty string, i.e. every character is whitespace. -/
def jsIsBlank (s : String) : Bool := s.data.all jsWhitespace

/-- The component state touched by the streaming loop of `handleSubmit`:
`messages`, the local accumulator `assistantMessage` (line 284), and the
tool-activity pair `currentTool` / `isUsingTool` (lines 115-116). -/
structure StreamState where
  messages : List Message
  assistantMessage : String
  currentTool : String
  isUsingTool : Bool
deriving DecidableEq

/-- The tool-activity (tracker) component of the state: the pair
`(isUsingTool, currentTool)`. -/
def trackerOf (st : StreamState) : Bool × String :=
  (st.isUsingTool, st.currentTool)

/-- The `setMessages` updater applied per chunk (constants.ts lines
325-331): `prev.map((msg, index) => index === prev.length - 1 &&
msg.role === 'assistant' ? { ...msg, content } : msg)`, written with an
explicit running index. -/
def mapLastAssistant (lastIdx : Nat) (c : String) : Nat → List Message → List Message
  | _, [] => []
  | i, m :: rest =>
    (if i = lastIdx ∧ m.role = Role.assistant then { m with content := c } else m)
      :: mapLastAssistant lastIdx c (i + 1) rest

/-- `setMessages(prev => prev.map(...))` for one content chunk
(constants.ts lines 325-331). -/
def updateLastAssistant (msgs : List Message) (c : String) : List Message :=
  mapLastAssistant (msgs.length - 1) c 0 msgs

/-- The non-tool path of the loop body (constants.ts lines 316-331).
Line 317 tests `chunk.trim() && isUsingTool`, where `isUsingTool` is the
const captured by this `handleSubmit` invocation's closure when its
render was created — the `setIsUsingTool` calls made during the turn
re-render the component but never change that const. The captured value
is therefore a separate argument `captured`, fixed for the whole turn,
while `st.isUsingTool` is the live rendered flag. When the test passes
the tool state is cleared (lines 318-320); then the chunk is appended to
the assistant accumulator and pushed into the last assistant message
(lines 323-331). -/
def contentStep (captured : Bool) (st : StreamState) (chunk : String) : StreamState :=
  let st1 :=
    if !jsIsBlank chunk && captured then
      { st with isUsingTool := false, currentTool := "" }
    else st
  let newAssistant := st1.assistantMessage ++ chunk
  { st1 with
      assistantMessage := newAssistant,
      messages := updateLastAssistant st1.messages newAssistant }

/-- One iteration of the streaming loop body on a decoded chunk
(constants.ts lines 297-331): if the chunk contains the sentinel and the
regular expression matches, record the tool and `continue` (the chunk is
dropped); otherwise take the content path, with `captured` the
closure-captured `isUsingTool` read by line 317. -/
def processChunk (captured : Bool) (st : StreamState) (chunk : String) : StreamState :=
  if containsSentinel chunk.data then
    match findToolMatch chunk.data with
    | some cap => { st with currentTool := ⟨cap⟩, isUsingTool := true }
    | none => contentStep captured st chunk
  else contentStep captured st chunk

/-- The whole streaming loop (constants.ts lines 293-332) over a finite
list of arriving chunks; `captured` is the closure-captured `isUsingTool`
value, the same for every iteration of one turn. -/
def processChunks (captured : Bool) (st : StreamState) : List String → StreamState
  | [] => st
  | c :: cs => processChunks captured (processChunk captured st c) cs

/-- The state at the top of the streaming loop (constants.ts lines
284-291): the empty assistant message has just been appended,
`assistantMessage` is the empty string, and the tool-activity flags are in
their reset values (`''`/`false`, re-established by every `finally`
block, lines 343-344). -/
def initStream (msgs : List Message) (now : Nat) : StreamState :=
  { messages := msgs ++ [{ role := Role.assistant, content := "", timestamp := now }],
    assistantMessage := "",
    currentTool := "",
    isUsingTool := false }

/-- The `finally` block of `handleSubmit` as far as tool activity is
concerned (constants.ts lines 343-344): `setIsUsingTool(false);
setCurrentTool('')`. -/
def endTurn (st : StreamState) : StreamState :=
  { st with isUsingTool := false, currentTool := "" }

/-- The `catch` block of `handleSubmit` (constants.ts lines 335-339):
append an apology assistant message. -/
def appendErrorMessage (st : StreamState) (now : Nat) : StreamState :=
  { st with
      messages := st.messages ++
        [{ role := Role.assistant,
           content := "Sorry, there was an error processing your request.",
           timestamp := now }] }

/-- A successfully streamed turn: the loop over all chunks, then the
`finally` block. The closure-captured `isUsingTool` is `false`: between
turns the rendered flag is `false` (its initial value at line 116, and
every `finally` block resets it), so the render whose handler runs the
turn captured `false`. -/
def runTurnSuccess (msgs : List Message) (now : Nat) (chunks : List String) : StreamState :=
  endTurn (processChunks false (initStream msgs now) chunks)

/-- A failed turn: the `catch` block then the `finally` block, from
whatever state the turn had reached. -/
def runTurnFailure (st : StreamState) (now : Nat) : StreamState :=
  endTurn (appendErrorMessage st now)

/-- The tool-activity invariant: when no tool is active the displayed
tool name is empty (`active == false ⇒ toolName == empty`). -/
def trackerInv (st : StreamState) : Prop :=
  st.isUsingTool = false → st.currentTool = ""

/-- The two outgoing request payload shapes built by `handleSubmit`
(constants.ts lines 253-267): the document-grounded shape with fields
`message`, `system_message`, `model`, `api_key`, `tavily_api_key`,
`pdf_id`, and the plain-chat shape with fields `developer_message`,
`user_message`, `model`, `api_key`. -/
inductive RequestBody where
  | pdfChat (message system_message model api_key tavily_api_key pdf_id : String) : RequestBody
  | plainChat (developer_message user_message model api_key : String) : RequestBody
deriving DecidableEq

/-- The default system message used for PDF chat (constants.ts line 256). -/
def pdfSystemDefault : String :=
  "You are a helpful assistant that can answer questions about uploaded PDF documents and search the web for additional information when needed. Format your responses using markdown for better readability - use headers, bullet points, code blocks, and emphasis where appropriate."

/-- The default developer message used for plain chat (constants.ts line 263). -/
def plainSystemDefault : String :=
  "You are a helpful AI assistant. Format your responses using markdown for better readability."

/-- The outcome of the synchronous opening phase of `handleSubmit`:
either one of the two early returns (constants.ts lines 229 and 232-235),
or the turn proceeds with the chosen endpoint and request body. -/
inductive SubmitOutcome where
  | rejectedInvalidInput : SubmitOutcome
  | configError : SubmitOutcome
  | proceed (endpoint : String) (body : RequestBody) : SubmitOutcome
deriving DecidableEq

/-- The component state read and written by the opening phase of
`handleSubmit` (validation, transcript append, in-flight flags, request
building; constants.ts lines 102-116 and 225-275). -/
structure AppState where
  messages : List Message
  userMessage : String
  developerMessage : String
  apiKey : String
  tavilyApiKey : String
  model : String
  isLoading : Bool
  isStreaming : Bool
  uploadedPDFs : List UploadedPDF
  selectedPDF : String
  currentTool : String
  isUsingTool : Bool
deriving DecidableEq

/-- Endpoint selection (constants.ts line 250):
`selectedPDF ? '/api/chat-pdf' : '/api/chat'`. -/
def chatEndpoint (st : AppState) : String :=
  if st.selectedPDF = "" then "/api/chat" else "/api/chat-pdf"

/-- Request body construction (constants.ts lines 253-267), including the
`developerMessage || default` fallbacks; the empty string is the only
falsy string. -/
def chatRequestBody (st : AppState) : RequestBody :=
  if st.selectedPDF = "" then
    RequestBody.plainChat
      (if st.developerMessage = "" then plainSystemDefault else st.developerMessage)
      st.userMessage st.model st.apiKey
  else
    RequestBody.pdfChat
      st.userMessage
      (if st.developerMessage = "" then pdfSystemDefault else st.developerMessage)
      st.model st.apiKey st.tavilyApiKey st.selectedPDF

/-- The synchronous opening phase of `handleSubmit` (constants.ts lines
225-275): early return if the user message or primary key is blank (line
229); early return with the missing-Tavily-key alert if a PDF is selected
and the Tavily key is blank (lines 232-235); otherwise append the user
message, clear the input, raise the in-flight flags (lines 237-246), and
build the endpoint and request body (lines 249-267) from the captured
state. Both early returns happen before any state mutation or request
construction, so they return the state unchanged. -/
def handleSubmitStart (st : AppState) (now : Nat) : SubmitOutcome × AppState :=
  if jsIsBlank st.userMessage || jsIsBlank st.apiKey then
    (SubmitOutcome.rejectedInvalidInput, st)
  else if !(st.selectedPDF = "") && jsIsBlank st.tavilyApiKey then
    (SubmitOutcome.configError, st)
  else
    (SubmitOutcome.proceed (chatEndpoint st) (chatRequestBody st),
     { st with
         messages := st.messages ++
           [{ role := Role.user, content := st.userMessage, timestamp := now }],
         userMessage := "",
         isLoading := true,
         isStreaming := true })

/-- RequestBuilder as worded by the spec (spec.md section 4.4): a pure
function of `(userText, documentSelection, modelId, systemMessage,
credentials)`; with a document selected it routes to the
document-grounded endpoint carrying message, system message (defaulted if
absent), model, primary credential, secondary credential and document id;
otherwise to the plain-chat endpoint carrying developer/system message
(defaulted), user message, model and primary credential. -/
def requestBuilderSpec (userText documentSelection modelId systemMessage primaryCred secondaryCred : String) : String × RequestBody :=
  if documentSelection = "" then
    ("/api/chat",
     RequestBody.plainChat
       (if systemMessage = "" then plainSystemDefault else systemMessage)
       userText modelId primaryCred)
  else
    ("/api/chat-pdf",
     RequestBody.pdfChat
       userText
       (if systemMessage = "" then pdfSystemDefault else systemMessage)
       modelId primaryCred secondaryCred documentSelection)

/-- The document-registry component of the state: the uploaded list and
the current selection (constants.ts lines 111-112). -/
structure RegistryState where
  uploadedPDFs : List UploadedPDF
  selectedPDF : String
deriving DecidableEq

/-- Modelled from the spec: the backend document store's DELETE endpoint
(`api/app.py`, proxied by the route in `src/unnamed/part_000` but itself
not present under `src/`). Per the spec, a Document is "removed on
explicit delete", the registry keeps "at most one document per id", and
the subsequent `list()` "produces a sequence ordered by insertion"
excluding the removed id; so the refreshed list fetched by
`loadUploadedPDFs` is the previous list with the deleted id filtered
out. -/
def backendDelete (docs : List UploadedPDF) (id : String) : List UploadedPDF :=
  docs.filter (fun d => !(d.pdf_id = id))

/-- Modelled from the spec: the backend document store's upload endpoint
(`api/app.py`, not present under `src/`). Per the spec a Document is
"created on successful upload acknowledgment" and the registry guarantees
"at most one document per id", so the refreshed list contains the
acknowledged document and keeps insertion order. -/
def backendUpload (docs : List UploadedPDF) (doc : UploadedPDF) : List UploadedPDF :=
  if docs.any (fun d => d.pdf_id = doc.pdf_id) then docs else docs ++ [doc]

/-- The success path of `handleDeletePDF` (constants.ts lines 201-223):
refresh the list via `loadUploadedPDFs` (line 210), then clear the
selection if the deleted id was selected (lines 211-213). -/
def handleDeletePDF (st : RegistryState) (pdfId : String) : RegistryState :=
  let refreshed := backendDelete st.uploadedPDFs pdfId
  { uploadedPDFs := refreshed,
    selectedPDF := if st.selectedPDF = pdfId then "" else st.selectedPDF }

/-- The success path of `handleFileUpload` (constants.ts lines 172-184):
refresh the list (line 177), then auto-select the uploaded id
(line 181). -/
def handleUploadSuccess (st : RegistryState) (doc : UploadedPDF) : RegistryState :=
  { uploadedPDFs := backendUpload st.uploadedPDFs doc,
    selectedPDF := doc.pdf_id }

/-- The PDF dropdown change handler (constants.ts lines 502-513):
`setSelectedPDF(e.target.value)`, where the rendered option values are
the empty string and the ids of the uploaded PDFs. -/
def handleSelectChange (st : RegistryState) (v : String) : RegistryState :=
  { st with selectedPDF := v }

/-- The selection invariant the spec states for the registry: the
selection, if non-empty, resolves to an existing document. -/
def selectionResolves (st : RegistryState) : Prop :=
  st.selectedPDF = "" ∨ ∃ d ∈ st.uploadedPDFs, d.pdf_id = st.selectedPDF

/-! ## Helper lemmas -/

/-- When the regular expression does not match, the loop body takes the
content path, whether or not the chunk contains the sentinel substring. -/
theorem processChunk_eq_contentStep (captured : Bool) (st : StreamState) (chunk : String)
    (hc : findToolMatch chunk.data = none) :
    processChunk captured st chunk = contentStep captured st chunk := by
  unfold processChunk
  cases h : containsSentinel chunk.data <;> simp [h, hc]

/-- The content path preserves the tool-activity invariant. -/
theorem trackerInv_contentStep (captured : Bool) (st : StreamState) (chunk : String)
    (h : trackerInv st) : trackerInv (contentStep captured st chunk) := by
  unfold contentStep
  by_cases hc : (!jsIsBlank chunk && captured) = true
  · simp [hc, trackerInv]
  · rw [Bool.not_eq_true] at hc
    simpa [hc, trackerInv] using h

/-- One loop iteration preserves the tool-activity invariant. -/
theorem trackerInv_processChunk (captured : Bool) (st : StreamState) (chunk : String)
    (h : trackerInv st) : trackerInv (processChunk captured st chunk) := by
  unfold processChunk
  cases hcs : containsSentinel chunk.data
  · simpa using trackerInv_contentStep captured st chunk h
  · cases hm : findToolMatch chunk.data
    · simpa [hm] using trackerInv_contentStep captured st chunk h
    · simp [hm, trackerInv]

/-- The whole loop preserves the tool-activity invariant. -/
theorem trackerInv_processChunks (captured : Bool) (st : StreamState) (chunks : List String)
    (h : trackerInv st) : trackerInv (processChunks captured st chunks) := by
  induction chunks generalizing st with
  | nil => exact h
  | cons c cs ih => exact ih _ (trackerInv_processChunk captured st c h)

/-- The state at the top of the loop satisfies the invariant. -/
theorem trackerInv_initStream (msgs : List Message) (now : Nat) :
    trackerInv (initStream msgs now) := fun _ => rfl

/-- With the closure-captured flag `false` — its value throughout any
single turn — the content path never changes the tracker pair: the
clearing at lines 318-320 is dead code during a turn. -/
theorem trackerOf_contentStep_false (st : StreamState) (chunk : String) :
    trackerOf (contentStep false st chunk) = trackerOf st := by
  unfold contentStep trackerOf
  simp

/-- The per-chunk `setMessages` updater preserves list length. -/
theorem mapLastAssistant_length (lastIdx : Nat) (c : String) :
    ∀ (start : Nat) (l : List Message),
      (mapLastAssistant lastIdx c start l).length = l.length := by
  intro start l
  induction l generalizing start with
  | nil => rfl
  | cons m rest ih => simp [mapLastAssistant, ih]

/-- Pointwise description of the per-chunk `setMessages` updater. -/
theorem mapLastAssistant_getElem (lastIdx : Nat) (c : String) :
    ∀ (l : List Message) (start i : Nat),
      (mapLastAssistant lastIdx c start l)[i]? =
        (l[i]?).map (fun m =>
          if start + i = lastIdx ∧ m.role = Role.assistant then
            { m with content := c } else m) := by
  intro l
  induction l with
  | nil => intro start i; simp [mapLastAssistant]
  | cons m rest ih =>
    intro start i
    cases i with
    | zero => simp [mapLastAssistant]
    | succ j =>
      simp only [mapLastAssistant, List.getElem?_cons_succ, ih (start + 1) j]
      have harith : start + 1 + j = start + (j + 1) := by omega
      rw [harith]

/-! ## Claim theorems -/

/-- C1: the marker decoder of the streaming loop is NOT
boundary-independent — this theorem evaluates the code at the failing
input: feeding `"__TOOL_USAGE__search__TOOL_USAGE__"` unsplit activates
the `search` tool and appends nothing, while feeding the same text split
at position 17 into `"__TOOL_USAGE__sea"` / `"rch__TOOL_USAGE__"` never
activates a tool and appends the raw marker text to the assistant
message. -/
theorem splitMarkerBoundaryDependence :
    processChunks false (initStream [] 0) ["__TOOL_USAGE__search__TOOL_USAGE__"] ≠
      processChunks false (initStream [] 0) ["__TOOL_USAGE__sea", "rch__TOOL_USAGE__"] ∧
    (processChunks false (initStream [] 0) ["__TOOL_USAGE__search__TOOL_USAGE__"]).isUsingTool = true ∧
    (processChunks false (initStream [] 0) ["__TOOL_USAGE__search__TOOL_USAGE__"]).currentTool = "search" ∧
    (processChunks false (initStream [] 0) ["__TOOL_USAGE__search__TOOL_USAGE__"]).assistantMessage = "" ∧
    (processChunks false (initStream [] 0) ["__TOOL_USAGE__sea", "rch__TOOL_USAGE__"]).isUsingTool = false ∧
    (processChunks false (initStream [] 0) ["__TOOL_USAGE__sea", "rch__TOOL_USAGE__"]).assistantMessage =
      "__TOOL_USAGE__search__TOOL_USAGE__" := by
  decide

/-- C2: the spec's split-marker scenario fails on the code — this theorem
evaluates the code at the failing input: the four fragments `"before "`,
`"__TOOL_USAGE__search__TOOL"`, `"_USAGE__"`, `"after"` are all appended
verbatim (the assistant transcript becomes
`"before __TOOL_USAGE__search__TOOL_USAGE__after"`, not `"before after"`)
and the tool flag is never raised after any prefix of the stream. -/
theorem splitMarkerScenarioLeaksText :
    (processChunks false (initStream [] 0)
        ["before ", "__TOOL_USAGE__search__TOOL", "_USAGE__", "after"]).assistantMessage =
      "before __TOOL_USAGE__search__TOOL_USAGE__after" ∧
    (processChunks false (initStream [] 0)
        ["before ", "__TOOL_USAGE__search__TOOL", "_USAGE__", "after"]).assistantMessage ≠
      "before after" ∧
    (processChunks false (initStream [] 0) ["before "]).isUsingTool = false ∧
    (processChunks false (initStream [] 0) ["before ", "__TOOL_USAGE__search__TOOL"]).isUsingTool = false ∧
    (processChunks false (initStream [] 0)
        ["before ", "__TOOL_USAGE__search__TOOL", "_USAGE__"]).isUsingTool = false ∧
    (processChunks false (initStream [] 0)
        ["before ", "__TOOL_USAGE__search__TOOL", "_USAGE__", "after"]).isUsingTool = false ∧
    (processChunks false (initStream [] 0)
        ["before ", "__TOOL_USAGE__search__TOOL", "_USAGE__", "after"]).currentTool = "" := by
  decide

/-- C3: when a single fragment contains a complete marker surrounded by
user-visible text, the code drops the whole fragment — this theorem
evaluates the code at the failing input
`"hello __TOOL_USAGE__search__TOOL_USAGE__ world"`: the tool is
recognized, but neither `"hello "` nor `" world"` is appended and the
message list is untouched, so the surrounding text is lost. -/
theorem completeMarkerChunkDropsSurroundingText :
    (processChunk false (initStream [] 0) "hello __TOOL_USAGE__search__TOOL_USAGE__ world").currentTool =
      "search" ∧
    (processChunk false (initStream [] 0) "hello __TOOL_USAGE__search__TOOL_USAGE__ world").isUsingTool =
      true ∧
    (processChunk false (initStream [] 0) "hello __TOOL_USAGE__search__TOOL_USAGE__ world").assistantMessage =
      "" ∧
    (processChunk false (initStream [] 0) "hello __TOOL_USAGE__search__TOOL_USAGE__ world").messages =
      (initStream [] 0).messages := by
  decide

/-- C4: a dangling unterminated opening sentinel at end-of-stream is not
a protocol error in the code — this theorem evaluates the code at the
failing input: after the final chunk `"__TOOL_USAGE__incomplete"` the
turn completes through the `finally` block with the partial marker text
emitted as the assistant message content. -/
theorem danglingSentinelEmittedAsContent :
    (runTurnSuccess [] 0 ["__TOOL_USAGE__incomplete"]).assistantMessage =
      "__TOOL_USAGE__incomplete" ∧
    (runTurnSuccess [] 0 ["__TOOL_USAGE__incomplete"]).messages =
      [{ role := Role.assistant, content := "__TOOL_USAGE__incomplete", timestamp := 0 }] ∧
    (runTurnSuccess [] 0 ["__TOOL_USAGE__incomplete"]).isUsingTool = false := by
  decide

/-- C5: the tool-activity step relation claimed for Content events is
false of the program — because line 317 reads the closure-captured
`isUsingTool`, which is `false` for the whole turn, the content path
never changes the tracker pair, so after `Tool("search")` the non-blank
content chunk `"hello"` leaves the tracker at `(true, "search")` instead
of forcing it Idle (the blank-chunk no-transition half does hold, as a
no-op). -/
theorem contentChunkNeverClearsToolState :
    (∀ (st : StreamState) (chunk : String),
      trackerOf (contentStep false st chunk) = trackerOf st) ∧
    jsIsBlank "hello" = false ∧
    trackerOf (processChunks false (initStream [] 0)
      ["__TOOL_USAGE__search__TOOL_USAGE__", "hello"]) = (true, "search") ∧
    (processChunks false (initStream [] 0)
      ["__TOOL_USAGE__search__TOOL_USAGE__", "hello"]).assistantMessage = "hello" := by
  refine ⟨trackerOf_contentStep_false, ?_, ?_, ?_⟩ <;> decide

/-- C6: end-of-turn — whether the turn streamed to completion or failed
into the `catch` block — forces the tool-activity state to Idle with an
empty tool name, and the invariant `active == false ⇒ toolName == empty`
is preserved by every event the tracker processes. -/
theorem endOfTurnForcesIdleAndInvariant :
    (∀ st : StreamState, trackerOf (endTurn st) = (false, "")) ∧
    (∀ (msgs : List Message) (now : Nat) (chunks : List String),
      trackerOf (runTurnSuccess msgs now chunks) = (false, "")) ∧
    (∀ (st : StreamState) (now : Nat), trackerOf (runTurnFailure st now) = (false, "")) ∧
    (∀ (captured : Bool) (st : StreamState) (chunk : String),
      trackerInv st → trackerInv (processChunk captured st chunk)) := by
  exact ⟨fun st => rfl,
         fun msgs now chunks => rfl,
         fun st now => rfl,
         fun captured st chunk h => trackerInv_processChunk captured st chunk h⟩

/-- C6 witness: from a state with the `search` tool running, processing
the chunk `"x"` preserves the invariant, and ending a failed turn from
that state yields the Idle pair. -/
theorem endOfTurnForcesIdleAndInvariantWitness :
    trackerInv (processChunk false
      { messages := [], assistantMessage := "", currentTool := "search", isUsingTool := true }
      "x") ∧
    trackerOf (runTurnFailure
      { messages := [], assistantMessage := "", currentTool := "search", isUsingTool := true }
      0) = (false, "") :=
  ⟨endOfTurnForcesIdleAndInvariant.2.2.2 false
      { messages := [], assistantMessage := "", currentTool := "search", isUsingTool := true }
      "x" (by intro h; exact absurd h (by decide)),
   endOfTurnForcesIdleAndInvariant.2.2.1
      { messages := [], assistantMessage := "", currentTool := "search", isUsingTool := true }
      0⟩

/-- C7 counterexample: a submission with a document selected and a blank
Tavily key, but a blank user message, returns through the first early
return (line 229) and never reaches the configuration check — so the
claim "every such submission fails with ConfigurationError" is false as
stated. -/
theorem configCheckSkippedOnBlankInput :
    (AppState.selectedPDF
        ⟨[], "", "", "sk-test", "", "gpt-4o-mini", false, false,
         [⟨"doc-1", "a.pdf", 3⟩], "doc-1", "", false⟩ ≠ "") ∧
    jsIsBlank (AppState.tavilyApiKey
        ⟨[], "", "", "sk-test", "", "gpt-4o-mini", false, false,
         [⟨"doc-1", "a.pdf", 3⟩], "doc-1", "", false⟩) = true ∧
    (handleSubmitStart
        ⟨[], "", "", "sk-test", "", "gpt-4o-mini", false, false,
         [⟨"doc-1", "a.pdf", 3⟩], "doc-1", "", false⟩ 0).1 =
      SubmitOutcome.rejectedInvalidInput ∧
    (handleSubmitStart
        ⟨[], "", "", "sk-test", "", "gpt-4o-mini", false, false,
         [⟨"doc-1", "a.pdf", 3⟩], "doc-1", "", false⟩ 0).1 ≠
      SubmitOutcome.configError := by
  decide

/-- C7 (amended): for every submission that passes the basic input check
(non-blank user text and primary key) with a document selected and a
blank Tavily key, `handleSubmit` stops with the configuration error
before building any request, leaving the whole component state
unchanged. -/
theorem configErrorWhenPdfSelectedWithoutTavily (st : AppState) (now : Nat)
    (hu : jsIsBlank st.userMessage = false) (ha : jsIsBlank st.apiKey = false)
    (hp : st.selectedPDF ≠ "") (ht : jsIsBlank st.tavilyApiKey = true) :
    handleSubmitStart st now = (SubmitOutcome.configError, st) := by
  unfold handleSubmitStart
  simp [hu, ha, hp, ht]

/-- C7 witness: a concrete submission with non-blank message and OpenAI
key, a selected document and a blank Tavily key stops with the
configuration error and an unchanged state. -/
theorem configErrorWhenPdfSelectedWithoutTavilyWitness :
    handleSubmitStart
        ⟨[], "hello", "", "sk-test", "", "gpt-4o-mini", false, false,
         [⟨"doc-1", "a.pdf", 3⟩], "doc-1", "", false⟩ 0 =
      (SubmitOutcome.configError,
       ⟨[], "hello", "", "sk-test", "", "gpt-4o-mini", false, false,
        [⟨"doc-1", "a.pdf", 3⟩], "doc-1", "", false⟩) :=
  configErrorWhenPdfSelectedWithoutTavily _ 0 (by decide) (by decide) (by decide) (by decide)

/-- C8: request building is a pure function of the user text, document
selection, model, system message and credentials — the endpoint and body
built by `handleSubmit` equal the spec-worded RequestBuilder on exactly
those inputs, carry exactly the specified fields in each of the two
cases, and are what a proceeding submission sends. -/
theorem requestBuildingPureAndShaped (st : AppState) :
    ((chatEndpoint st, chatRequestBody st) =
      requestBuilderSpec st.userMessage st.selectedPDF st.model st.developerMessage
        st.apiKey st.tavilyApiKey) ∧
    (∀ st' : AppState,
      st.userMessage = st'.userMessage → st.selectedPDF = st'.selectedPDF →
      st.model = st'.model → st.developerMessage = st'.developerMessage →
      st.apiKey = st'.apiKey → st.tavilyApiKey = st'.tavilyApiKey →
      (chatEndpoint st, chatRequestBody st) = (chatEndpoint st', chatRequestBody st')) ∧
    (st.selectedPDF ≠ "" →
      chatEndpoint st = "/api/chat-pdf" ∧
      chatRequestBody st = RequestBody.pdfChat st.userMessage
        (if st.developerMessage = "" then pdfSystemDefault else st.developerMessage)
        st.model st.apiKey st.tavilyApiKey st.selectedPDF) ∧
    (st.selectedPDF = "" →
      chatEndpoint st = "/api/chat" ∧
      chatRequestBody st = RequestBody.plainChat
        (if st.developerMessage = "" then plainSystemDefault else st.developerMessage)
        st.userMessage st.model st.apiKey) ∧
    (∀ now : Nat,
      jsIsBlank st.userMessage = false → jsIsBlank st.apiKey = false →
      (st.selectedPDF ≠ "" → jsIsBlank st.tavilyApiKey = false) →
      (handleSubmitStart st now).1 =
        SubmitOutcome.proceed (chatEndpoint st) (chatRequestBody st)) := by
  refine ⟨?_, ?_, ?_, ?_, ?_⟩
  · unfold chatEndpoint chatRequestBody requestBuilderSpec
    by_cases h : st.selectedPDF = "" <;> simp [h]
  · intro st' h1 h2 h3 h4 h5 h6
    unfold chatEndpoint chatRequestBody
    rw [h1, h2, h3, h4, h5, h6]
  · intro h
    unfold chatEndpoint chatRequestBody
    simp [h]
  · intro h
    unfold chatEndpoint chatRequestBody
    simp [h]
  · intro now hu ha ht
    unfold handleSubmitStart
    by_cases h : st.selectedPDF = ""
    · simp [hu, ha, h]
    · simp [hu, ha, h, ht h]

/-- C8 witness: a concrete submission with a selected document builds the
document-grounded request with exactly the specified fields. -/
theorem requestBuildingPureAndShapedWitness :
    chatEndpoint
        ⟨[], "hello", "", "sk-test", "tvly-test", "gpt-4o-mini", false, false,
         [⟨"doc-1", "a.pdf", 3⟩], "doc-1", "", false⟩ = "/api/chat-pdf" ∧
    chatRequestBody
        ⟨[], "hello", "", "sk-test", "tvly-test", "gpt-4o-mini", false, false,
         [⟨"doc-1", "a.pdf", 3⟩], "doc-1", "", false⟩ =
      RequestBody.pdfChat "hello" pdfSystemDefault "gpt-4o-mini" "sk-test" "tvly-test"
        "doc-1" := by
  have h := (requestBuildingPureAndShaped
    ⟨[], "hello", "", "sk-test", "tvly-test", "gpt-4o-mini", false, false,
     [⟨"doc-1", "a.pdf", 3⟩], "doc-1", "", false⟩).2.2.1 (by decide)
  exact ⟨h.1, by rw [h.2]; rfl⟩

/-- C9: deleting the currently selected document clears the selection in
the same operation and the refreshed list excludes the deleted id; the
selection-resolves invariant is preserved by the delete, by a successful
upload (which auto-selects the acknowledged document), and by any
selection change to a rendered option. -/
theorem registryRemoveClearsSelectionAndInvariant (st : RegistryState) (id : String) :
    (st.selectedPDF = id → (handleDeletePDF st id).selectedPDF = "") ∧
    (∀ d ∈ (handleDeletePDF st id).uploadedPDFs, d.pdf_id ≠ id) ∧
    (selectionResolves st → selectionResolves (handleDeletePDF st id)) ∧
    (∀ doc : UploadedPDF, selectionResolves (handleUploadSuccess st doc)) ∧
    (∀ v : String, (v = "" ∨ ∃ d ∈ st.uploadedPDFs, d.pdf_id = v) →
      selectionResolves (handleSelectChange st v)) := by
  refine ⟨?_, ?_, ?_, ?_, ?_⟩
  · intro h
    simp [handleDeletePDF, h]
  · intro d hd
    simp [handleDeletePDF, backendDelete, List.mem_filter] at hd
    exact hd.2
  · intro h
    by_cases hsel : st.selectedPDF = id
    · left
      simp [handleDeletePDF, hsel]
    · rcases h with h0 | ⟨d, hd, hid⟩
      · left
        simp [handleDeletePDF, hsel, h0]
      · right
        refine ⟨d, ?_, ?_⟩
        · simp [handleDeletePDF, backendDelete, List.mem_filter]
          exact ⟨hd, by rw [hid]; exact hsel⟩
        · simp [handleDeletePDF, hsel, hid]
  · intro doc
    right
    unfold handleUploadSuccess backendUpload
    by_cases hany : st.uploadedPDFs.any (fun d => d.pdf_id = doc.pdf_id) = true
    · simp only [hany, if_pos]
      rcases List.any_eq_true.mp hany with ⟨d, hd, hp⟩
      exact ⟨d, hd, of_decide_eq_true hp⟩
    · simp only [hany, if_neg, Bool.false_eq_true, not_false_iff]
      exact ⟨doc, List.mem_append_right _ (List.mem_singleton_self doc), rfl⟩
  · intro v hv
    rcases hv with h0 | ⟨d, hd, hid⟩
    · left
      exact h0
    · right
      exact ⟨d, hd, hid⟩

/-- C9 witness: deleting the selected document `doc-1` from a
one-document registry clears the selection and the invariant holds
afterwards. -/
theorem registryRemoveWitness :
    (handleDeletePDF ⟨[⟨"doc-1", "a.pdf", 3⟩], "doc-1"⟩ "doc-1").selectedPDF = "" ∧
    selectionResolves (handleDeletePDF ⟨[⟨"doc-1", "a.pdf", 3⟩], "doc-1"⟩ "doc-1") := by
  have h := registryRemoveClearsSelectionAndInvariant ⟨[⟨"doc-1", "a.pdf", 3⟩], "doc-1"⟩ "doc-1"
  exact ⟨h.1 rfl, h.2.2.1 (Or.inr ⟨⟨"doc-1", "a.pdf", 3⟩, by simp, rfl⟩)⟩

/-- C10: frame property of per-chunk transcript updates — the updater
keeps the list length, rewrites the content of a message only at the last
index and only when that message's role is assistant, returns every other
entry unchanged, and in particular never changes a user message. -/
theorem chunkUpdateFrame (msgs : List Message) (c : String) :
    (updateLastAssistant msgs c).length = msgs.length ∧
    (∀ (i : Nat) (m : Message), msgs[i]? = some m →
      (i = msgs.length - 1 ∧ m.role = Role.assistant →
        (updateLastAssistant msgs c)[i]? = some { m with content := c }) ∧
      (¬(i = msgs.length - 1 ∧ m.role = Role.assistant) →
        (updateLastAssistant msgs c)[i]? = some m)) ∧
    (∀ (i : Nat) (m : Message), msgs[i]? = some m → m.role = Role.user →
      (updateLastAssistant msgs c)[i]? = some m) := by
  refine ⟨mapLastAssistant_length _ _ 0 msgs, ?_, ?_⟩
  · intro i m hm
    constructor
    · intro hcond
      rw [updateLastAssistant, mapLastAssistant_getElem, hm]
      simp [hcond.1, hcond.2]
    · intro hcond
      rw [updateLastAssistant, mapLastAssistant_getElem, hm]
      simp only [Nat.zero_add, Option.map_some']
      rw [if_neg hcond]
  · intro i m hm hrole
    rw [updateLastAssistant, mapLastAssistant_getElem, hm]
    simp [hrole]

/-- C10 witness: updating the transcript `[user "hi", assistant ""]` with
accumulated content `"Hello"` rewrites only the trailing assistant
message and leaves the user message untouched. -/
theorem chunkUpdateFrameWitness :
    (updateLastAssistant [⟨Role.user, "hi", 0⟩, ⟨Role.assistant, "", 1⟩] "Hello")[0]? =
      some ⟨Role.user, "hi", 0⟩ ∧
    (updateLastAssistant [⟨Role.user, "hi", 0⟩, ⟨Role.assistant, "", 1⟩] "Hello")[1]? =
      some ⟨Role.assistant, "Hello", 1⟩ := by
  have h := chunkUpdateFrame [⟨Role.user, "hi", 0⟩, ⟨Role.assistant, "", 1⟩] "Hello"
  exact ⟨h.2.2 0 ⟨Role.user, "hi", 0⟩ (by decide) rfl,
         (h.2.1 1 ⟨Role.assistant, "", 1⟩ (by decide)).1 (by decide)⟩
